import Mathlib

/-!
A shallow embedding of `cmem_plugin_logpoint/search_logs_task.py` (class
`RetrieveLogs`): the search-lifecycle transport (`search_start`,
`search_retrieve_logs`), the record materialization of `execute`, the two
preview probes, and the constructor.  Network interaction is modelled by
passing the (parsed JSON) responses the service would return to the
successive requests; Python exceptions become an explicit error type.
-/

namespace Logpoint

/-- A JSON scalar as it appears in Logpoint result rows. -/
inductive JValue where
  | str (s : String)
  | num (n : Int)
  deriving DecidableEq, Repr

/-- Python `str()` coercion, as used in `values.append([str(result[path.path])])`. -/
def JValue.toPyStr : JValue → String
  | .str s => s
  | .num n => toString n

/-- A raw result row: a JSON object, field name to value, insertion order kept. -/
abbrev RawRow := List (String × JValue)

/-- Python `dict` subscript `obj[key]` as an optional lookup (keys are unique). -/
def rowGet (row : RawRow) (key : String) : Option JValue :=
  (row.find? (fun kv => kv.1 == key)).map (fun kv => kv.2)

/-- The Python exceptions the embedded code can raise. -/
inductive Err where
  | valueError (msg : String)
  | keyError (msg : String)
  | httpError (status : Nat)
  | indexError
  deriving DecidableEq, Repr

/-- Python `str.split(sep)` for a one-character separator, on the character
list: splitting never yields the empty list (the empty string splits to
`[[]]`, one empty chunk). -/
def pySplitChars (sep : Char) : List Char → List (List Char)
  | [] => [[]]
  | c :: cs =>
    if c = sep then [] :: pySplitChars sep cs
    else
      match pySplitChars sep cs with
      | [] => [[c]]
      | g :: gs => (c :: g) :: gs

/-- Python `s.split(sep)` on strings. -/
def pySplit (sep : Char) (s : String) : List String :=
  (pySplitChars sep s.data).map (fun cs => String.mk cs)

/-- Python `str.strip()` with no argument: drop leading and trailing
whitespace. -/
def pyStrip (s : String) : String :=
  String.mk (((s.data.dropWhile Char.isWhitespace).reverse.dropWhile
    Char.isWhitespace).reverse)

/-- Python `s.removesuffix(suf)`: drop one trailing occurrence when present. -/
def removesuffix (s suf : String) : String :=
  if s.endsWith suf then s.dropRight suf.length else s

/-- The state the constructor stores on the plugin object. -/
structure Config where
  base_url : String
  account : String
  secret_key : String
  query : String
  time_range : String
  limit : Int
  repos : List String
  paths_list : List String
  deriving DecidableEq, Repr

/-- `self.repos` as the constructor computes it from the `repos` parameter:
`[repo.strip() for repo in repos.split(",")]`. -/
def reposOf (repos : String) : List String :=
  (pySplit ',' repos).map pyStrip

/-- `self.paths_list` as the constructor computes it from `paths_list`:
`[p.strip() for p in paths_list.split(",")]`. -/
def pathsListOf (paths_list : String) : List String :=
  (pySplit ',' paths_list).map pyStrip

/-- `RetrieveLogs.__init__`: validates `limit` (raising
`ValueError("Limit must be positive.")` for `limit < 1`) and stores the
configuration.  The constructor body performs no network request, so the
embedding needs no service responses. -/
def retrieveLogsInit (base_url account secret_key query time_range : String)
    (limit : Int) (repos paths_list : String) : Except Err Config :=
  if limit < 1 then .error (.valueError "Limit must be positive.")
  else .ok {
    base_url := removesuffix base_url "/"
    account := account
    secret_key := secret_key
    query := query
    time_range := time_range
    limit := limit
    repos := reposOf repos
    paths_list := pathsListOf paths_list }

/-- The fixed output schema of `generate_schema` (an `EntityPath` per
stored path, type uri `"test"`). -/
structure EntitySchema where
  type_uri : String
  paths : List String
  deriving DecidableEq, Repr

def generate_schema (paths_list : List String) : EntitySchema :=
  ⟨"test", paths_list⟩

/-- The output port chosen by the constructor:
`FixedSchemaPort(schema=self.generate_schema()) if self.paths_list else UnknownSchemaPort()`
(a Python list is truthy iff it is non-empty). -/
inductive OutputPort where
  | fixedSchemaPort (schema : EntitySchema)
  | unknownSchemaPort
  deriving DecidableEq, Repr

def outputPortOf (paths_list : List String) : OutputPort :=
  if !paths_list.isEmpty then .fixedSchemaPort (generate_schema paths_list)
  else .unknownSchemaPort

/-! ## Transport -/

/-- The `requestData` body `search_start` sends to `/getsearchlogs`. -/
structure StartRequest where
  repos : List String
  limit : Int
  time_range : String
  query : String
  deriving DecidableEq, Repr

/-- The service's (parsed JSON) response to a start-search request. -/
structure StartResponse where
  status : Nat
  body : List (String × JValue)
  deriving DecidableEq, Repr

/-- The service's (parsed JSON) response to one poll of `/getsearchlogs`. -/
structure PageResponse where
  status : Nat
  final : Bool
  rows : List RawRow
  deriving DecidableEq, Repr

/-- `requests.Response.raise_for_status()` raises `HTTPError` exactly for
4xx and 5xx status codes. -/
def httpOk (status : Nat) : Bool := status < 400

/-- `RetrieveLogs.search_start`: posts the request built from its four
parameters and reads `response.json()["search_id"]`.  The source calls no
`raise_for_status` here, so the HTTP status of `resp` is never examined;
a body without a `search_id` key re-raises the `KeyError` with the message
below.  Returns the request sent together with the outcome. -/
def search_start (repos : List String) (limit : Int) (time_range query : String)
    (resp : StartResponse) : StartRequest × Except Err JValue :=
  (⟨repos, limit, time_range, query⟩,
    match rowGet resp.body "search_id" with
    | some v => .ok v
    | none => .error (.keyError "No search_id was found due to the query being incorrect."))

/-- `RetrieveLogs.search_retrieve_logs`: issue a poll, `raise_for_status`,
and repeat while `final` is false; when a response has `final == true`,
return that response's `rows` field (rows of earlier, non-final responses
are not accumulated).  `pages` is the sequence of responses the service
returns to the successive (identical) poll requests; the source blocks
inside `requests.post` if the service stops answering, modelled here by a
transport error on exhaustion. -/
def search_retrieve_logs : List PageResponse → Except Err (List RawRow)
  | [] => .error (.httpError 0)
  | r :: rest =>
    if httpOk r.status then
      if r.final then .ok r.rows
      else search_retrieve_logs rest
    else .error (.httpError r.status)

/-! ## Materialization (`execute` after retrieval) -/

/-- One produced entity: `Entity(uri=entity_uri, values=values)`. -/
structure Entity where
  uri : String
  values : List (List String)
  deriving DecidableEq, Repr

/-- The per-row inner loop of `execute`: walk the schema paths in order,
appending `[str(result[path])]` for a present field and `[""]` (setting the
KeyError flag) for an absent one. -/
def rowValues (paths : List String) (row : RawRow) : List (List String) × Bool :=
  paths.foldl (fun acc path =>
    match rowGet row path with
    | some v => (acc.1 ++ [[v.toPyStr]], acc.2)
    | none => (acc.1 ++ [[""]], true)) ([], false)

/-- The fixed-schema branch of `execute` over all rows.  In the source,
`entities.append(Entity(uri=entity_uri, values=values))` runs once per path
iteration, in the `try` arm and in the `except KeyError` arm alike, so a row
contributes `len(paths)` entities, all with the row's uuid; each of them
holds a reference to the row's single `values` list, so once the row's path
loop has finished, every one of them exposes the completed values list —
that completed view is what the returned entity list contains.  The KeyError
flag is shared by the whole batch. -/
def materializeFixed (paths : List String) (uuids : Nat → String) :
    Nat → List RawRow → List Entity × Bool
  | _, [] => ([], false)
  | i, row :: rest =>
    let rv := rowValues paths row
    let tail := materializeFixed paths uuids (i + 1) rest
    (List.replicate paths.length ⟨uuids i, rv.1⟩ ++ tail.1, rv.2 || tail.2)

/-- Outcome of the materialization phase of `execute`: either delegation of
the raw rows to the external `build_entities_from_data` collaborator, or the
fixed-schema entities with the batch's KeyError flag. -/
inductive MatResult where
  | inferred (rows : List RawRow)
  | fixedRes (entities : List Entity) (warning : Bool)
  deriving DecidableEq, Repr

/-- The materialization phase of `execute`: the early return
`if len(self.paths_list) == 1 and self.paths_list[0] == ""` hands the raw
rows to `build_entities_from_data`; otherwise the fixed-schema loop runs
over `generate_schema().paths`.  `uuids` supplies `str(uuid.uuid4())`, one
fresh identifier per row. -/
def materialize (paths_list : List String) (rows : List RawRow)
    (uuids : Nat → String) : MatResult :=
  if paths_list.length == 1 && paths_list.headD "" == "" then .inferred rows
  else
    .fixedRes (materializeFixed (generate_schema paths_list).paths uuids 0 rows).1
      (materializeFixed (generate_schema paths_list).paths uuids 0 rows).2

/-- The identifier-free view of a materialization outcome: the rows handed to
inference, or each entity's `values` together with the batch's KeyError
flag (everything except the freshly minted uuids). -/
def MatResult.valuesView :
    MatResult → List RawRow ⊕ (List (List (List String)) × Bool)
  | .inferred rows => .inl rows
  | .fixedRes es w => .inr (es.map Entity.values, w)

/-- `RetrieveLogs.execute`: start the search with the stored configuration,
poll to completion, then materialize. -/
def execute (cfg : Config) (startResp : StartResponse)
    (pages : List PageResponse) (uuids : Nat → String) : Except Err MatResult :=
  match (search_start cfg.repos cfg.limit cfg.time_range cfg.query startResp).2 with
  | .error e => .error e
  | .ok _ =>
    match search_retrieve_logs pages with
    | .error e => .error e
    | .ok results => .ok (materialize cfg.paths_list results uuids)

/-! ## Preview actions -/

/-- `RetrieveLogs.preview_output_paths`: start a search with the configured
query, time range and repos but `limit=1`, poll to completion, then read
`results[0]` (an `IndexError` when the result list is empty) and format one
`- key` line per key of that first row.  The method assigns no attribute,
so the plugin state it leaves behind is the state it was called with; the
triple returned is (start request sent, outcome, state after the call). -/
def preview_output_paths (cfg : Config) (startResp : StartResponse)
    (pages : List PageResponse) : StartRequest × Except Err String × Config :=
  let started := search_start cfg.repos 1 cfg.time_range cfg.query startResp
  let outcome : Except Err String :=
    match started.2 with
    | .error e => .error e
    | .ok _ =>
      match search_retrieve_logs pages with
      | .error e => .error e
      | .ok [] => .error .indexError
      | .ok (r :: _) => .ok (r.foldl (fun s kv => s ++ "- " ++ kv.1 ++ "\n") "")
  (started.1, outcome, cfg)

/-- The service's response to `/getalloweddata` (each allowed repo reduced to
its `repo` name). -/
structure ReposResponse where
  status : Nat
  allowed_repos : List String
  deriving DecidableEq, Repr

/-- `RetrieveLogs.preview_repositories`: posts to `/getalloweddata` and
formats one `- repo` line per allowed repository.  The source never checks
the HTTP status of the response, so no transport error can arise. -/
def preview_repositories (resp : ReposResponse) : Except Err String :=
  .ok (resp.allowed_repos.foldl (fun s r => s ++ "- " ++ r ++ "\n") "")

/-! ## Helper lemmas -/

theorem pySplitChars_ne_nil (sep : Char) : ∀ l : List Char, pySplitChars sep l ≠ []
  | [] => by simp [pySplitChars]
  | c :: cs => by
    unfold pySplitChars
    by_cases h : c = sep
    · simp [h]
    · rcases hm : pySplitChars sep cs with _ | ⟨g, gs⟩
      · exact absurd hm (pySplitChars_ne_nil sep cs)
      · simp [h, hm]

theorem pySplit_ne_nil (sep : Char) (s : String) : pySplit sep s ≠ [] := by
  unfold pySplit
  intro h
  exact pySplitChars_ne_nil sep s.data (List.map_eq_nil_iff.mp h)

theorem pathsListOf_ne_nil (s : String) : pathsListOf s ≠ [] := by
  unfold pathsListOf
  intro h
  exact pySplit_ne_nil ',' s (List.map_eq_nil_iff.mp h)

theorem reposOf_ne_nil (s : String) : reposOf s ≠ [] := by
  unfold reposOf
  intro h
  exact pySplit_ne_nil ',' s (List.map_eq_nil_iff.mp h)

/-- When the poll loop returns rows, the observed responses are a run of
non-final success responses followed by one final success response, and the
returned rows are that final response's rows. -/
theorem search_retrieve_logs_ok_spec :
    ∀ (pages : List PageResponse) (rows : List RawRow),
      search_retrieve_logs pages = .ok rows →
      ∃ pre fin post, pages = pre ++ fin :: post ∧
        (∀ p ∈ pre, p.final = false ∧ httpOk p.status = true) ∧
        fin.final = true ∧ httpOk fin.status = true ∧ rows = fin.rows
  | [], rows, h => by simp [search_retrieve_logs] at h
  | r :: rest, rows, h => by
    by_cases hs : httpOk r.status = true
    · by_cases hf : r.final = true
      · refine ⟨[], r, rest, rfl, by simp, hf, hs, ?_⟩
        simp [search_retrieve_logs, hs, hf] at h
        exact h.symm
      · have h' : search_retrieve_logs rest = .ok rows := by
          simpa [search_retrieve_logs, hs, hf] using h
        obtain ⟨pre, fin, post, hp, hpre, hfin, hfs, hrows⟩ :=
          search_retrieve_logs_ok_spec rest rows h'
        refine ⟨r :: pre, fin, post, by simp [hp], ?_, hfin, hfs, hrows⟩
        intro p hpmem
        rcases List.mem_cons.mp hpmem with h1 | h2
        · subst h1
          exact ⟨by simpa using hf, hs⟩
        · exact hpre p h2
    · simp [search_retrieve_logs, hs] at h

/-- A non-success status reached after a run of successful non-final
responses makes the poll loop raise an HTTPError. -/
theorem search_retrieve_logs_badstatus :
    ∀ (pre : List PageResponse) (page : PageResponse) (post : List PageResponse),
      (∀ p ∈ pre, p.final = false ∧ httpOk p.status = true) →
      httpOk page.status = false →
      search_retrieve_logs (pre ++ page :: post) = .error (.httpError page.status)
  | [], page, post, _, hbad => by simp [search_retrieve_logs, hbad]
  | r :: pre, page, post, hpre, hbad => by
    obtain ⟨hf, hs⟩ := hpre r (List.mem_cons_self r pre)
    have tail := search_retrieve_logs_badstatus pre page post
      (fun p hp => hpre p (List.mem_cons_of_mem r hp)) hbad
    simp [search_retrieve_logs, hs, hf, tail]

/-- The fixed-schema loop's entity values and KeyError flag do not depend on
the uuid supply or the row numbering. -/
theorem materializeFixed_values_eq (paths : List String) (u1 u2 : Nat → String) :
    ∀ (i j : Nat) (rows : List RawRow),
      (materializeFixed paths u1 i rows).1.map Entity.values =
        (materializeFixed paths u2 j rows).1.map Entity.values ∧
      (materializeFixed paths u1 i rows).2 = (materializeFixed paths u2 j rows).2
  | _, _, [] => ⟨rfl, rfl⟩
  | i, j, row :: rest => by
    obtain ⟨h1, h2⟩ := materializeFixed_values_eq paths u1 u2 (i + 1) (j + 1) rest
    simp [materializeFixed, List.map_append, List.map_replicate, h1, h2]

/-! ## Concrete instances shared by witnesses and counterexamples -/

/-- The row of Scenario B's first page. -/
def rowA1 : RawRow := [("a", JValue.num 1)]

/-- The row of Scenario B's final page. -/
def rowA2 : RawRow := [("a", JValue.num 2)]

/-- Scenario B's poll sequence: a non-final page with rowA1, then a final
page with rowA2, both with status 200. -/
def pagesB : List PageResponse := [⟨200, false, [rowA1]⟩, ⟨200, true, [rowA2]⟩]

/-- A uuid supply for concrete runs: row i gets identifier toString i. -/
def uuidsDemo : Nat → String := fun i => toString i

/-- A concrete plugin configuration used by counterexamples. -/
def cfgDemo : Config :=
  ⟨"https://demo.logpoint.com", "partner", "secret", "norm_id=*", "Last 1 hour",
    1000, [""], [""]⟩

/-- Recognizes Python's built-in KeyError, the generic lookup-failure
exception kind. -/
def Err.isKeyError : Err → Bool
  | .keyError _ => true
  | _ => false

/-! ## Claims -/

/-- C1 (amended): `search_retrieve_logs` returns rows only after observing a
response with `final == true` — every earlier observed response is non-final
with a success status — but the rows returned are exactly the final
response's `rows`; the rows of the earlier, non-final responses are
discarded, not accumulated. -/
theorem pollUntilFinal_final_page_only (pages : List PageResponse)
    (rows : List RawRow) (h : search_retrieve_logs pages = .ok rows) :
    ∃ pre fin post, pages = pre ++ fin :: post ∧
      (∀ p ∈ pre, p.final = false ∧ httpOk p.status = true) ∧
      fin.final = true ∧ httpOk fin.status = true ∧ rows = fin.rows :=
  search_retrieve_logs_ok_spec pages rows h

/-- C1 witness: the theorem applied to Scenario B's two-page poll sequence,
whose result is the final page's row list. -/
theorem pollUntilFinal_final_page_only_witness :
    ∃ pre fin post, pagesB = pre ++ fin :: post ∧
      (∀ p ∈ pre, p.final = false ∧ httpOk p.status = true) ∧
      fin.final = true ∧ httpOk fin.status = true ∧ [rowA2] = fin.rows :=
  pollUntilFinal_final_page_only pagesB [rowA2] rfl

/-- C1 counterexample: on Scenario B's poll sequence (non-final page with
row a=1, then final page with row a=2) the code returns only the final
page's rows, not the concatenation of both pages' rows. -/
theorem pollUntilFinal_concat_counterexample :
    search_retrieve_logs pagesB = .ok [rowA2] ∧
    search_retrieve_logs pagesB ≠ .ok [rowA1, rowA2] := by
  have e : search_retrieve_logs pagesB = .ok [rowA2] := rfl
  refine ⟨e, fun h => ?_⟩
  injection e.symm.trans h with h2
  simp [rowA1, rowA2] at h2

/-- C2 (code bug evidence): `entities.append` runs inside the per-path loop
(in the try arm and in the except arm alike), so the fixed schema with paths
a and b over the single row holding only field a materializes TWO records —
not one per row — both with values a maps to 1 coerced to a string and the
empty placeholder for b, with the batch KeyError flag set. -/
theorem materialize_duplicates_entities_per_row :
    materialize ["a", "b"] [rowA1] uuidsDemo =
      .fixedRes [⟨"0", [["1"], [""]]⟩, ⟨"0", [["1"], [""]]⟩] true := rfl

/-- C3 (amended): the materialization delegates to the external
`build_entities_from_data` collaborator exactly when the stored path list is
the one-element list holding the empty string; an all-blank list of two or
more elements (or an empty list) takes the fixed-schema branch instead. -/
theorem materialize_inferred_iff_singleton_blank (paths_list : List String)
    (rows : List RawRow) (uuids : Nat → String) :
    materialize paths_list rows uuids = .inferred rows ↔ paths_list = [""] := by
  constructor
  · intro h
    unfold materialize at h
    rcases hb : (paths_list.length == 1 && paths_list.headD "" == "") with _ | _
    · rw [hb] at h
      exact absurd h (by simp)
    · simp only [Bool.and_eq_true, beq_iff_eq] at hb
      obtain ⟨h1, h2⟩ := hb
      rcases paths_list with _ | ⟨p, rest⟩
      · simp at h1
      · rcases rest with _ | ⟨q, rest2⟩
        · simp [List.headD] at h2
          simp [h2]
        · simp at h1
  · intro h
    subst h
    simp [materialize]

/-- C3 counterexample: the all-blank two-element path list (what the
constructor stores for the input string holding a single comma) does not
delegate to inference; it materializes fixed-schema records with two
empty-named fields. -/
theorem materialize_allblank_counterexample :
    materialize ["", ""] [rowA1] uuidsDemo =
      .fixedRes [⟨"0", [[""], [""]]⟩, ⟨"0", [[""], [""]]⟩] true ∧
    materialize ["", ""] [rowA1] uuidsDemo ≠ .inferred [rowA1] := by
  have e : materialize ["", ""] [rowA1] uuidsDemo =
      .fixedRes [⟨"0", [[""], [""]]⟩, ⟨"0", [[""], [""]]⟩] true := rfl
  exact ⟨e, fun h => MatResult.noConfusion (e.symm.trans h)⟩

/-- C4 (amended): during polling every response's HTTP status is checked —
a non-success status reached after any run of successful non-final
responses raises an HTTPError and no rows are returned, and whenever rows
are returned every observed response had a success status — but the
start-search call and the repository listing never examine the HTTP status
and can never raise a transport error. -/
theorem transport_status_checks :
    (∀ (pre : List PageResponse) (page : PageResponse) (post : List PageResponse),
        (∀ p ∈ pre, p.final = false ∧ httpOk p.status = true) →
        httpOk page.status = false →
        search_retrieve_logs (pre ++ page :: post) = .error (.httpError page.status)) ∧
    (∀ (pages : List PageResponse) (rows : List RawRow),
        search_retrieve_logs pages = .ok rows →
        ∃ pre fin post, pages = pre ++ fin :: post ∧
          (∀ p ∈ pre, httpOk p.status = true) ∧ httpOk fin.status = true) ∧
    (∀ (repos : List String) (limit : Int) (time_range query : String)
        (resp : StartResponse) (s : Nat),
        (search_start repos limit time_range query resp).2 ≠ .error (.httpError s)) ∧
    (∀ (resp : ReposResponse) (s : Nat),
        preview_repositories resp ≠ .error (.httpError s)) := by
  refine ⟨search_retrieve_logs_badstatus, ?_, ?_, ?_⟩
  · intro pages rows h
    obtain ⟨pre, fin, post, hp, hpre, _, hfs, _⟩ :=
      search_retrieve_logs_ok_spec pages rows h
    exact ⟨pre, fin, post, hp, fun p hp2 => (hpre p hp2).2, hfs⟩
  · intro repos limit time_range query resp s h
    unfold search_start at h
    rcases hg : rowGet resp.body "search_id" with _ | v <;> simp [hg] at h
  · intro resp s h
    exact Except.noConfusion h

/-- C4 counterexample: a start-search response with HTTP status 500 whose
body still carries a search identifier raises nothing — `search_start`
returns the identifier, so a non-success status on this call does not cause
a transport error. -/
theorem search_start_ignores_status :
    (search_start [""] 1000 "Last 1 hour" "q"
        ⟨500, [("search_id", JValue.str "x")]⟩).2 = .ok (JValue.str "x") ∧
    (search_start [""] 1000 "Last 1 hour" "q"
        ⟨500, [("search_id", JValue.str "x")]⟩).2 ≠ .error (.httpError 500) := by
  have e : (search_start [""] 1000 "Last 1 hour" "q"
      ⟨500, [("search_id", JValue.str "x")]⟩).2 = .ok (JValue.str "x") := rfl
  exact ⟨e, fun h => Except.noConfusion (e.symm.trans h)⟩

/-- C5 (amended): a start-search response body lacking a search identifier
makes `search_start` fail with a KeyError — Python's generic lookup-failure
exception kind, caught and re-raised — whose message reports that no
search identifier was found because the query was likely incorrect. -/
theorem search_start_missing_id_keyerror (repos : List String) (limit : Int)
    (time_range query : String) (resp : StartResponse)
    (h : rowGet resp.body "search_id" = none) :
    (search_start repos limit time_range query resp).2 =
      .error (.keyError "No search_id was found due to the query being incorrect.") := by
  simp [search_start, h]

/-- C5 witness: the theorem applied to Scenario D's empty response body. -/
theorem search_start_missing_id_keyerror_witness :
    (search_start [""] 1000 "Last 1 hour" "q" ⟨200, []⟩).2 =
      .error (.keyError "No search_id was found due to the query being incorrect.") :=
  search_start_missing_id_keyerror [""] 1000 "Last 1 hour" "q" ⟨200, []⟩ rfl

/-- C5 counterexample: on Scenario D's empty body the raised exception IS
the generic lookup-failure kind (a KeyError), not a distinct error kind. -/
theorem search_start_rejection_is_lookup_error :
    (search_start [""] 1000 "Last 1 hour" "q" ⟨200, []⟩).2 =
      .error (.keyError "No search_id was found due to the query being incorrect.") ∧
    Err.isKeyError
      (.keyError "No search_id was found due to the query being incorrect.") = true :=
  ⟨rfl, rfl⟩

/-- C6 (amended): `preview_output_paths` issues a start request with the
configured query, time range and repositories but limit 1, leaves the
plugin state untouched, and on a non-empty result returns one dashed line
per key of the first row; on an empty result it raises an IndexError
instead of returning an empty preview. -/
theorem preview_output_paths_spec :
    (∀ (cfg : Config) (sr : StartResponse) (pages : List PageResponse),
        (preview_output_paths cfg sr pages).1 =
          ⟨cfg.repos, 1, cfg.time_range, cfg.query⟩ ∧
        (preview_output_paths cfg sr pages).2.2 = cfg) ∧
    (∀ (cfg : Config) (sr : StartResponse) (pages : List PageResponse)
        (v : JValue) (r : RawRow) (rest : List RawRow),
        rowGet sr.body "search_id" = some v →
        search_retrieve_logs pages = .ok (r :: rest) →
        (preview_output_paths cfg sr pages).2.1 =
          .ok (r.foldl (fun s kv => s ++ "- " ++ kv.1 ++ "\n") "")) ∧
    (∀ (cfg : Config) (sr : StartResponse) (pages : List PageResponse) (v : JValue),
        rowGet sr.body "search_id" = some v →
        search_retrieve_logs pages = .ok [] →
        (preview_output_paths cfg sr pages).2.1 = .error .indexError) := by
  refine ⟨fun cfg sr pages => ⟨rfl, rfl⟩, ?_, ?_⟩
  · intro cfg sr pages v r rest h1 h2
    simp [preview_output_paths, search_start, h1, h2]
  · intro cfg sr pages v h1 h2
    simp [preview_output_paths, search_start, h1, h2]

/-- C6 counterexample: a successful limit-1 search whose final page has zero
rows makes `preview_output_paths` raise an IndexError (from `results[0]`)
rather than produce an empty preview. -/
theorem preview_output_paths_empty_error :
    (preview_output_paths cfgDemo ⟨200, [("search_id", JValue.str "x")]⟩
        [⟨200, true, []⟩]).2.1 = .error .indexError ∧
    (preview_output_paths cfgDemo ⟨200, [("search_id", JValue.str "x")]⟩
        [⟨200, true, []⟩]).2.1 ≠ .ok "" := by
  have e : (preview_output_paths cfgDemo ⟨200, [("search_id", JValue.str "x")]⟩
      [⟨200, true, []⟩]).2.1 = .error .indexError := rfl
  exact ⟨e, fun h => Except.noConfusion (e.symm.trans h)⟩

/-- C7: constructing the plugin with any limit below one fails immediately
with the configuration error (the ValueError reading Limit must be
positive); the constructor consumes no service response, so no network call
is made. -/
theorem init_rejects_nonpositive_limit
    (base_url account secret_key query time_range : String) (limit : Int)
    (repos paths_list : String) (h : limit < 1) :
    retrieveLogsInit base_url account secret_key query time_range limit
      repos paths_list = .error (.valueError "Limit must be positive.") := by
  unfold retrieveLogsInit
  rw [if_pos h]

/-- C7 witness: the theorem applied at limit -1 (the repository's own test
input). -/
theorem init_rejects_nonpositive_limit_witness :
    retrieveLogsInit "https://example.com" "account" "sk" "" "Last 1 hour"
      (-1) "" "" = .error (.valueError "Limit must be positive.") :=
  init_rejects_nonpositive_limit "https://example.com" "account" "sk" ""
    "Last 1 hour" (-1) "" "" (by decide)

/-- C8: materializing the same rows under the same path list twice yields
records whose values (and the batch KeyError flag, and the rows handed to
inference) coincide; only the freshly minted identifiers may differ between
the two uuid supplies. -/
theorem materialize_values_idempotent (paths_list : List String)
    (rows : List RawRow) (u1 u2 : Nat → String) :
    (materialize paths_list rows u1).valuesView =
      (materialize paths_list rows u2).valuesView := by
  unfold materialize
  rcases hb : (paths_list.length == 1 && paths_list.headD "" == "") with _ | _
  · obtain ⟨h1, h2⟩ :=
      materializeFixed_values_eq (generate_schema paths_list).paths u1 u2 0 0 rows
    simp [MatResult.valuesView, h1, h2]
  · simp

/-- C9: splitting any paths string on commas yields at least one element, so
the stored path list is never empty, the output port is always the fixed
schema port, and the unknown-schema branch is unreachable from
construction. -/
theorem paths_list_nonempty_port_fixed (s : String) :
    pathsListOf s ≠ [] ∧
    outputPortOf (pathsListOf s) = .fixedSchemaPort (generate_schema (pathsListOf s)) ∧
    (∀ (base_url account secret_key query time_range : String) (limit : Int)
        (repos : String) (cfg : Config),
        retrieveLogsInit base_url account secret_key query time_range limit
          repos s = .ok cfg → cfg.paths_list = pathsListOf s) := by
  refine ⟨pathsListOf_ne_nil s, ?_, ?_⟩
  · rcases hl : pathsListOf s with _ | ⟨a, l⟩
    · exact absurd hl (pathsListOf_ne_nil s)
    · simp [outputPortOf]
  · intro base_url account secret_key query time_range limit repos cfg h
    unfold retrieveLogsInit at h
    by_cases hlim : limit < 1
    · rw [if_pos hlim] at h
      exact Except.noConfusion h
    · rw [if_neg hlim] at h
      injection h with h2
      subst h2
      rfl

/-- C10: the constructor turns the empty repositories string into the
one-element list holding the empty string — never the empty list, for any
input string — and the start request body carries that stored list
verbatim. -/
theorem empty_repos_singleton_list (s : String) :
    reposOf "" = [""] ∧ reposOf s ≠ [] ∧
    (∀ (limit : Int) (time_range query : String) (resp : StartResponse),
        (search_start (reposOf "") limit time_range query resp).1.repos = [""]) ∧
    (∀ (base_url account secret_key query time_range : String) (limit : Int)
        (paths_list : String) (cfg : Config),
        retrieveLogsInit base_url account secret_key query time_range limit
          "" paths_list = .ok cfg → cfg.repos = [""]) := by
  have h0 : reposOf "" = [""] := by decide
  refine ⟨h0, reposOf_ne_nil s, fun limit time_range query resp => h0, ?_⟩
  intro base_url account secret_key query time_range limit paths_list cfg h
  unfold retrieveLogsInit at h
  by_cases hlim : limit < 1
  · rw [if_pos hlim] at h
    exact Except.noConfusion h
  · rw [if_neg hlim] at h
    injection h with h2
    subst h2
    exact h0

end Logpoint
